import Mathlib

/-!
Verification development for the `pydantic_ai_sops` toolset
(`src/pydantic_ai_sops/toolset.py`).

The Python module is shallowly embedded: filesystem paths are lists of
segments, filesystem state and fallible I/O primitives are explicit
parameters (`Except` models raised exceptions), and the side effects of
the caller-facing operations (path-safety checks, dynamic module loads,
file reads) are recorded as explicit event traces.  PyYAML is an external
library, so `yaml.safe_load` is an abstract parameter of the functions
that call it.
-/

namespace SOPs

/-- Absolute filesystem path, POSIX style, as a list of segments. -/
abbrev PathT := List String

/-- Python exceptions relevant to the embedded code: `ValueError` (raised by
`Path.relative_to`), `OSError` (I/O failures), and `RuntimeError` (raised by
`Path.resolve` on symlink loops on some interpreter versions). -/
inductive PyExc where
  | valueError (msg : String)
  | osError (msg : String)
  | runtimeError (msg : String)
deriving DecidableEq

/-- Discovery-time errors that escape `discover_sops`.  `validation` is the
`SOPValidationError` raised by `parse_sop_md` and re-raised by the per-entry
loop.  `typeError` is the uncaught `TypeError` raised by the constructor
call `SOP(..., has_toolset=has_toolset, ...)` (`toolset.py` lines 279-286):
the `SOP` dataclass in `types.py` has no `has_toolset` field, and the
per-entry handlers catch only `SOPValidationError` and `OSError`, so the
`TypeError` aborts the whole call. -/
inductive DiscoverErr where
  | validation (msg : String)
  | typeError (msg : String)
deriving DecidableEq

/-- Characters matched by Python's regex class `\s` (ASCII range), which is
also the set stripped by `str.strip()` for ASCII input. -/
def isPySpace (c : Char) : Bool :=
  c = ' ' || c = '\t' || c = '\n' || c = '\r' || c = '\x0b' || c = '\x0c'

/-- Strip `\s` characters from both ends of a character list
(Python `str.strip()`). -/
def pyStripList (cs : List Char) : List Char :=
  ((cs.dropWhile isPySpace).reverse.dropWhile isPySpace).reverse

/-- Python `str.strip()`. -/
def pyStrip (s : String) : String :=
  String.mk (pyStripList s.data)

/-- Match of the regex fragment `\s*\n` (greedy `\s*` followed by a literal
newline): succeeds when the input starts with zero or more `\s` characters
followed by a newline, and consumes up to and including the LAST newline of
the leading whitespace run (the greedy choice the regex engine commits to).
Returns the unconsumed suffix. -/
def afterLastNewlineInRun : List Char → Option (List Char)
  | [] => none
  | c :: rest =>
    if c = '\n' then
      match afterLastNewlineInRun rest with
      | some r => some r
      | none => some rest
    else if isPySpace c then
      afterLastNewlineInRun rest
    else none

/-- Match of the delimiter regex `---\s*\n` anchored at the current position
(the position is a line start, per the `^` anchor in the source pattern
`^---\s*\n` compiled with `re.MULTILINE`).  Returns the suffix after the
consumed delimiter. -/
def matchDelim : List Char → Option (List Char)
  | '-' :: '-' :: '-' :: rest => afterLastNewlineInRun rest
  | _ => none

/-- Scan for the closing delimiter `^---\s*\n`, collecting the lazily matched
group `(.*?)` (with `re.DOTALL`, so the group may span lines).  The Boolean
flag records whether the current position is a line start, where the `^`
anchor can match.  Returns `(group, suffix after the closing delimiter)`. -/
def closeScan : Bool → List Char → Option (List Char × List Char)
  | atStart, cs =>
    match if atStart then matchDelim cs else none with
    | some rest => some ([], rest)
    | none =>
      match cs with
      | [] => none
      | c :: rest => (closeScan (c = '\n') rest).map (fun p => (c :: p.1, p.2))

/-- Leftmost search for the full frontmatter pattern `^---\s*\n(.*?)^---\s*\n`
(`re.search` with `re.DOTALL | re.MULTILINE`): try every line-start position
in order; at each, match the opening delimiter and then look for the first
closing delimiter.  Returns `(group 1, suffix after the match end)`. -/
def openScan : Bool → List Char → Option (List Char × List Char)
  | atStart, cs =>
    match
      if atStart then
        match matchDelim cs with
        | some afterOpen => closeScan true afterOpen
        | none => none
      else none
    with
    | some r => some r
    | none =>
      match cs with
      | [] => none
      | c :: rest => openScan (c = '\n') rest

/-- Check, scanning with a line-start flag, that the delimiter pattern
`---\s*\n` matches at NO line start of the input.  Used to state that a
document region contains no metadata delimiter line. -/
def linesAllFailDelim : Bool → List Char → Bool
  | atStart, cs =>
    (if atStart then (matchDelim cs).isNone else true) &&
      match cs with
      | [] => true
      | c :: rest => linesAllFailDelim (c = '\n') rest

/-- Scalar YAML value as produced by `yaml.safe_load` for the metadata
fields the claims are about.  Composite values (nested sequences and
mappings) can occur in the open-ended extra attributes but are outside the
scope of the modelled behaviour, so they are not represented. -/
inductive Yaml where
  | str (s : String)
  | int (n : Int)
  | bool (b : Bool)
  | null
deriving DecidableEq

/-- Python truthiness of a scalar value. -/
def Yaml.truthy : Yaml → Bool
  | .str s => s ≠ ""
  | .int n => n ≠ 0
  | .bool b => b
  | .null => false

/-- Python `str()` of a scalar value. -/
def Yaml.pyStr : Yaml → String
  | .str s => s
  | .int n => toString n
  | .bool b => if b then "True" else "False"
  | .null => "None"

/-- Decoded frontmatter mapping (Python dict: unique keys, insertion
order). -/
abbrev Frontmatter := List (String × Yaml)

/-- Python `dict.get(k)` on the frontmatter. -/
def fmGet (fm : Frontmatter) (k : String) : Option Yaml :=
  (fm.find? (fun kv => kv.1 = k)).map (fun kv => kv.2)

/-- Abstract `yaml.safe_load`: PyYAML is an external library, so the decoder
is a parameter.  `Except.error` models `yaml.YAMLError`; `Except.ok none`
models a document that decodes to `None`. -/
abbrev SafeLoad := String → Except String (Option Frontmatter)

/-- Embedding of `parse_sop_md` (`toolset.py`): search for the frontmatter
block between `---` delimiter lines; without a match the whole trimmed
document is the instructions; otherwise decode the trimmed block, raising
`SOPValidationError` on a decode failure, and take the trimmed remainder
after the closing delimiter as the instructions. -/
def parse_sop_md (load : SafeLoad) (content : String) :
    Except DiscoverErr (Frontmatter × String) :=
  match openScan true content.data with
  | none => .ok ([], pyStrip content)
  | some (grp, rest) =>
    let frontmatterYaml := pyStrip (String.mk grp)
    let instructions := pyStrip (String.mk rest)
    if frontmatterYaml = "" then .ok ([], instructions)
    else
      match load frontmatterYaml with
      | .error e => .error (.validation ("Failed to parse YAML frontmatter: " ++ e))
      | .ok none => .ok ([], instructions)
      | .ok (some fm) => .ok (fm, instructions)

instance {ε α : Type} [DecidableEq ε] [DecidableEq α] : DecidableEq (Except ε α) := fun a b =>
  match a, b with
  | .error x, .error y => decidable_of_iff (x = y) (by simp)
  | .ok x, .ok y => decidable_of_iff (x = y) (by simp)
  | .error _, .ok _ => .isFalse (fun h => Except.noConfusion h)
  | .ok _, .error _ => .isFalse (fun h => Except.noConfusion h)

/-- Python `str.split('\n')`: the list of newline-separated segments
(one more segment than there are newlines; the empty string yields one
empty segment). -/
def pySplitNl : List Char → List (List Char)
  | [] => [[]]
  | c :: rest =>
    match pySplitNl rest with
    | [] => []
    | h :: t => if c = '\n' then [] :: h :: t else (c :: h) :: t

/-- Character class of the regex `SOP_NAME_PATTERN = ^[a-z0-9-]+$`. -/
def isNameChar (c : Char) : Bool :=
  ('a' ≤ c && c ≤ 'z') || ('0' ≤ c && c ≤ '9') || c = '-'

/-- Result of `SOP_NAME_PATTERN.match(s)` being a match.  Python's `$`
matches at the end of the string or just before a single newline at the end
of the string, so a name consisting of pattern characters followed by one
trailing newline also matches. -/
def sopNamePatternMatch (s : String) : Bool :=
  (!s.data.isEmpty && s.data.all isNameChar) ||
    (!s.data.dropLast.isEmpty && s.data.dropLast.all isNameChar &&
      s.data.getLast? = some '\n')

/-- The `RESERVED_WORDS` set.  Python iterates a set in an unspecified
order; the fixed order used here only affects the relative order of the two
reserved-word warnings, which no claim depends on. -/
def RESERVED_WORDS : List String := ["anthropic", "claude"]

/-- String projection of `frontmatter.get(k, '')` as the validator uses it:
a missing key or a falsy value behaves as the empty string (both fail the
`if name:` / `if description:` truthiness guards); a truthy value is used
as text.  A truthy non-string value would make the source raise `TypeError`
at `len()`, which is outside the modelled behaviour; the claims about the
validator all concern string values. -/
def fmStr (fm : Frontmatter) (k : String) : String :=
  match fmGet fm k with
  | none => ""
  | some v => if v.truthy then v.pyStr else ""

/-- Embedding of `_validate_sop_metadata` (`toolset.py`): non-fatal warning
strings for the name format/length/reserved-word rules, the description
length rule and the instructions line-count rule. -/
def _validate_sop_metadata (fm : Frontmatter) (instructions : String) : List String :=
  let name := fmStr fm "name"
  let description := fmStr fm "description"
  let nameWarnings :=
    if name ≠ "" then
      (if name.length > 64 then
        ["SOP name '" ++ name ++ "' exceeds 64 characters (" ++
          toString name.length ++ " chars)"]
      else if !sopNamePatternMatch name then
        ["SOP name '" ++ name ++
          "' should contain only lowercase letters, numbers, and hyphens"]
      else []) ++
      ((RESERVED_WORDS.filter (fun w => decide (w.data <:+: name.data))).map
        (fun w => "SOP name '" ++ name ++ "' contains reserved word '" ++ w ++ "'"))
    else []
  let descWarnings :=
    if description ≠ "" && description.length > 1024 then
      ["SOP description exceeds 1024 characters (" ++
        toString description.length ++ " chars)"]
    else []
  let lineCount := (pySplitNl instructions.data).length
  let lineWarnings :=
    if lineCount > 500 then
      ["SOP.md body exceeds recommended 500 lines (" ++ toString lineCount ++
        " lines). Consider splitting into separate resource files."]
    else []
  nameWarnings ++ descWarnings ++ lineWarnings

/-- A resource file within a SOP (`types.py`, `SOPResource`); content is
fetched on demand, never stored. -/
structure SOPResource where
  name : String
  path : PathT
deriving DecidableEq

/-- An executable script within a SOP (`types.py`, `SOPScript`); carried for
fidelity with the `SOP` dataclass, never populated by discovery. -/
structure SOPScript where
  name : String
  path : PathT
  sop_name : String
deriving DecidableEq

/-- SOP metadata (`types.py`, `SOPMetadata`). -/
structure SOPMetadata where
  name : String
  description : String
  extra : Frontmatter
deriving DecidableEq

/-- A loaded SOP record as the registry code in `toolset.py` operates on
it: the catalog-facing code both passes `has_toolset=` to the constructor
(line 284) and reads `sop.has_toolset` (line 464).  NOTE: the `SOP`
dataclass actually declared in `types.py` LACKS the `has_toolset` field, so
the constructor call raises `TypeError`; that defect is modelled where it
occurs, in `processSOPDir`, which never produces a value of this type on
that code path.  This structure is the record shape the rest of
`SOPsToolset` is written against. -/
structure SOP where
  name : String
  path : PathT
  metadata : SOPMetadata
  content : String
  has_toolset : Bool
  resources : List SOPResource
  scripts : List SOPScript
deriving DecidableEq

/-- One entry yielded by `sop_folder.rglob('*')` inside the `resources/`
subdirectory, in traversal order.  `rel` is the path relative to the SOP
folder (it includes the `resources` segment).  `isFileRes` is the outcome of
`resource_file.is_file()`: a Boolean, or an `OSError` raised during the
stat (the source has no per-entry handler for it). -/
structure ResourceEntry where
  rel : List String
  isFileRes : Except PyExc Bool
deriving DecidableEq

/-- The filesystem contents of one SOP folder (one `SOP.md` match of the
discovery glob): the folder's name and resolved absolute path, the result
of `SOP.md.read_text()`, the `*.md` glob results, the `resources/`
subdirectory traversal (when it exists and is a directory), and whether
`tools/toolset.py` exists. -/
structure SOPDirModel where
  folderName : String
  folderPath : PathT
  readResult : Except PyExc String
  mdNames : List String
  resourceEntries : Option (List ResourceEntry)
  hasToolsetFile : Bool
deriving DecidableEq

/-- One configured root directory: missing, not a directory, or a directory
whose recursive `SOP.md` matches are given in traversal order. -/
inductive RootModel where
  | missing
  | notDir
  | dir (sopDirs : List SOPDirModel)
deriving DecidableEq

/-- Slash-joined rendering of a path relative to the SOP folder
(`str(rel_path)`, POSIX). -/
def relStr (rel : List String) : String :=
  String.intercalate "/" rel

/-- Embedding of `_discover_resources` (`toolset.py`): markdown files other
than `SOP.md` (case-insensitive name comparison), then every regular file
under `resources/` named by its relative path.  The loop body has no
exception handler, so an `OSError` from an entry's `is_file()` propagates
out of the whole function. -/
def _discover_resources (d : SOPDirModel) : Except PyExc (List SOPResource) :=
  let mdRes := (d.mdNames.filter (fun n => n.toUpper ≠ "SOP.MD")).map
    (fun n => SOPResource.mk n (d.folderPath ++ [n]))
  match d.resourceEntries with
  | none => .ok mdRes
  | some entries =>
    (entries.foldlM
      (fun (acc : List SOPResource) (e : ResourceEntry) =>
        (e.isFileRes).map (fun b =>
          if b then acc ++ [SOPResource.mk (relStr e.rel) (d.folderPath ++ e.rel)]
          else acc))
      []).map (fun sub => mdRes ++ sub)

/-- Embedding of `_check_toolset` (`toolset.py`): whether
`<folder>/tools/toolset.py` exists. -/
def _check_toolset (d : SOPDirModel) : Bool :=
  d.hasToolsetFile

/-- Processing of a single `SOP.md` match inside `discover_sops`'s loop.
`Except.ok none` means the entry was skipped (`OSError` reading the
manifest, missing name under validation, or `OSError` during resource
traversal — all absorbed by the per-entry handlers).  `Except.error` is an
exception escaping the loop: the re-raised `SOPValidationError` from a
decode failure, or the uncaught `TypeError` from the constructor call
`SOP(name=..., path=..., metadata=..., content=..., has_toolset=...,
resources=...)` — the dataclass in `types.py` has no `has_toolset`
parameter, so every entry that reaches construction raises.  The metadata,
resource and tool-module computations preceding the constructor call are
kept in source order. -/
def processSOPDir (load : SafeLoad) (validate : Bool) (d : SOPDirModel) :
    Except DiscoverErr (Option SOP) :=
  match d.readResult with
  | .error _ => .ok none
  | .ok content =>
    match parse_sop_md load content with
    | .error e => .error e
    | .ok (fm, instructions) =>
      let nameVal := fmGet fm "name"
      let nameTruthy := (nameVal.map Yaml.truthy).getD false
      if validate && !nameTruthy then .ok none
      else
        let name := if nameTruthy then (nameVal.map Yaml.pyStr).getD "" else d.folderName
        let description := ((fmGet fm "description").getD (.str "")).pyStr
        let extra := fm.filter (fun kv => kv.1 ≠ "name" && kv.1 ≠ "description")
        match _discover_resources d with
        | .error _ => .ok none
        | .ok resources =>
          let has_toolset := _check_toolset d
          .error (.typeError
            "SOP.__init__() got an unexpected keyword argument 'has_toolset'")

/-- Fold of `processSOPDir` over the `SOP.md` matches of one root. -/
def processDirs (load : SafeLoad) (validate : Bool) :
    List SOPDirModel → Except DiscoverErr (List SOP)
  | [] => .ok []
  | d :: ds =>
    match processSOPDir load validate d with
    | .error e => .error e
    | .ok none => processDirs load validate ds
    | .ok (some s) => (processDirs load validate ds).map (fun l => s :: l)

/-- Embedding of `discover_sops` (`toolset.py`): walk the configured roots
in order, skipping a missing or non-directory root with a warning, and
process every `SOP.md` match; the handled per-entry failures skip only
their entry, while a `SOPValidationError` — or the uncaught construction
`TypeError` — propagates out of the whole call. -/
def discover_sops (load : SafeLoad) (roots : List RootModel) (validate : Bool) :
    Except DiscoverErr (List SOP) :=
  match roots with
  | [] => .ok []
  | r :: rest =>
    match r with
    | .missing => discover_sops load rest validate
    | .notDir => discover_sops load rest validate
    | .dir ds =>
      match processDirs load validate ds with
      | .error e => .error e
      | .ok l => (discover_sops load rest validate).map (fun l2 => l ++ l2)

/-- Embedding of `Path.relative_to` for already-resolved absolute paths:
the relative remainder when `base` is `target` or an ancestor of it, and a
`ValueError` otherwise. -/
def relative_to (target base : PathT) : Except PyExc PathT :=
  if base.isPrefixOf target then .ok (target.drop base.length)
  else .error (.valueError "not in the subpath")

/-- Embedding of `_is_safe_path` (`toolset.py`) given a total
canonicalization function `resolve` (the behaviour of non-strict
`Path.resolve()`, which resolves as far as possible without raising):
containment of the resolved target under the resolved base. -/
def _is_safe_path (resolve : PathT → PathT) (base_path target_path : PathT) : Bool :=
  (resolve base_path).isPrefixOf (resolve target_path)

/-- Exception-level run of `_is_safe_path`'s body: `resolveE` is an abstract
fallible canonicalization (on some interpreter versions `Path.resolve` can
raise, e.g. `RuntimeError` on a symlink loop).  The target is resolved
first, then the base, then `relative_to` is applied; the `except ValueError`
clause of the source maps exactly `ValueError` to the result `False`, and
every other exception propagates. -/
def isSafePathRun (resolveE : PathT → Except PyExc PathT) (base_path target_path : PathT) :
    Except PyExc Bool :=
  let body : Except PyExc Bool :=
    (resolveE target_path).bind (fun t =>
      (resolveE base_path).bind (fun b =>
        (relative_to t b).map (fun _ => true)))
  match body with
  | .ok b => .ok b
  | .error (.valueError _) => .ok false
  | .error e => .error e

/-- Side effects of the caller-facing operations, recorded in order:
an `_is_safe_path` call with its arguments and result, a dynamic load of a
companion tool-module (`_import_toolset`), and a resource file read. -/
inductive Event where
  | safeCheck (base target : PathT) (result : Bool)
  | loadModule (path : PathT)
  | readFile (path : PathT)
deriving DecidableEq

/-- Python dict insert: replace the value of an existing key in place,
otherwise append the new binding. -/
def pyDictInsert : List (String × SOP) → String → SOP → List (String × SOP)
  | [], k, v => [(k, v)]
  | kv :: rest, k, v =>
    if kv.1 = k then (k, v) :: rest else kv :: pyDictInsert rest k v

/-- Python dict lookup (first binding of the key). -/
def pyDictGet (d : List (String × SOP)) (k : String) : Option SOP :=
  (d.find? (fun kv => kv.1 = k)).map (fun kv => kv.2)

/-- The dict comprehension `{sop.name: sop for sop in sops}` of
`SOPsToolset._discover_sops`: later occurrences of a name overwrite earlier
ones. -/
def pyDictOfList (sops : List SOP) : List (String × SOP) :=
  sops.foldl (fun d s => pyDictInsert d s.name s) []

/-- The `SOPsToolset` state: the `_sops` dict mapping names to SOPs.  The
configuration fields (`_directories`, `_validate`, ...) are passed as
parameters to the operations that use them. -/
structure SOPsToolset where
  sops : List (String × SOP)
deriving DecidableEq

/-- Embedding of `SOPsToolset.__init__` with the given filesystem roots:
with `auto_discover` the catalog is built by `_discover_sops`
(a `SOPValidationError` from discovery propagates out of the constructor),
otherwise the catalog starts empty. -/
def mkToolset (load : SafeLoad) (roots : List RootModel) (validate auto_discover : Bool) :
    Except DiscoverErr SOPsToolset :=
  if auto_discover then
    (discover_sops load roots validate).map (fun sops => SOPsToolset.mk (pyDictOfList sops))
  else .ok (SOPsToolset.mk [])

/-- Embedding of `SOPsToolset.refresh` over the filesystem state `roots` at
refresh time: on success the catalog is replaced wholesale; if discovery
raises, `self._sops` is never reassigned and the old catalog stays. -/
def SOPsToolset.refresh (load : SafeLoad) (validate : Bool) (st : SOPsToolset)
    (roots : List RootModel) : SOPsToolset :=
  match discover_sops load roots validate with
  | .ok sops => SOPsToolset.mk (pyDictOfList sops)
  | .error _ => st

/-- Insertion step of string-keyed sorting (Python `sorted`). -/
def insertByKey {α : Type} (key : α → String) (x : α) : List α → List α
  | [] => [x]
  | y :: rest => if key x ≤ key y then x :: y :: rest else y :: insertByKey key x rest

/-- Python `sorted` by a string key (keys are unique wherever this is used,
so stability is irrelevant). -/
def sortByKey {α : Type} (key : α → String) : List α → List α
  | [] => []
  | x :: rest => insertByKey key x (sortByKey key rest)

/-- Newline join (`'\n'.join(lines)`). -/
def joinNl (lines : List String) : String :=
  String.intercalate "\n" lines

/-- POSIX rendering of an absolute path (`str(path)` / f-string
interpolation). -/
def pathStr (p : PathT) : String :=
  "/" ++ String.intercalate "/" p

/-- Apostrophe character (used by Python `repr` of a string). -/
def quoteChar : Char := Char.ofNat 39

/-- Separator-joined concatenation of character lists (`', '.join`). -/
def joinSep (sep : List Char) : List (List Char) → List Char
  | [] => []
  | x :: rest =>
    match rest with
    | [] => x
    | _ :: _ => x ++ sep ++ joinSep sep rest

/-- Python `repr` of a string without escapes (none of the rendered names
contain quote characters in the modelled scope). -/
def pyReprChars (names : List String) : List Char :=
  let quoted := names.map (fun s => quoteChar :: (s.data ++ [quoteChar]))
  '[' :: (joinSep (", ").data quoted ++ [']'])

/-- Python `str` of a list of strings, as interpolated into an f-string. -/
def pyReprStrList (names : List String) : String :=
  String.mk (pyReprChars names)

/-- Embedding of the `list_sops` tool: fixed message on an empty catalog,
otherwise one `name: description` line per entry, sorted by name. -/
def list_sops (st : SOPsToolset) : String :=
  if st.sops.isEmpty then "No SOPs available."
  else
    joinNl (["# Available SOPs", ""] ++
      (sortByKey (fun kv => kv.1) st.sops).map
        (fun kv => kv.1 ++ ": " ++ kv.2.metadata.description))

/-- Embedding of the `activate_sop` tool.  `importTools` abstracts
`_import_toolset` (dynamic execution of the companion module, returning the
names of the tools of its `sop_ts` binding); the load itself is recorded as
a `loadModule` event at the path built by `_get_toolset`
(`sop.path / tools / toolset.py`).  The source performs no `_is_safe_path`
call on this code path, so no `safeCheck` event is ever emitted here. -/
def activate_sop (importTools : PathT → List String) (st : SOPsToolset)
    (sop_name : String) : String × List Event :=
  match pyDictGet st.sops sop_name with
  | none =>
    let joined := String.intercalate ", " (sortByKey id (st.sops.map (fun kv => kv.1)))
    let available := if joined = "" then "none" else joined
    ("Error: SOP '" ++ sop_name ++ "' not found. Available SOPs: " ++ available, [])
  | some sop =>
    let toolsetPath := sop.path ++ ["tools", "toolset.py"]
    let toolPart : List String × List Event :=
      if sop.has_toolset then
        (["**Available Tools:**"] ++
          (importTools toolsetPath).map (fun t => "- " ++ t) ++ [""],
         [Event.loadModule toolsetPath])
      else ([], [])
    let resPart : List String :=
      if sop.resources.isEmpty then []
      else
        ["**Available Resources:**"] ++
          sop.resources.map (fun r => "- " ++ r.name) ++ [""]
    let lines :=
      ["# SOP: " ++ sop.name,
       "**Description:** " ++ sop.metadata.description,
       "**Path:** " ++ pathStr sop.path,
       ""] ++ toolPart.1 ++ resPart ++ ["---", "", sop.content]
    (joinNl lines, toolPart.2)

/-- Error raised (not returned as text) by `read_sop_resource`. -/
inductive RaisedErr where
  | resourceLoadError (msg : String)
deriving DecidableEq

/-- Message text of an exception as interpolated into an f-string. -/
def PyExc.msg : PyExc → String
  | .valueError m => m
  | .osError m => m
  | .runtimeError m => m

/-- Embedding of the `read_sop_resource` tool: unknown name and unknown
resource return caller-visible error strings; a found resource is guarded
by `_is_safe_path` against the SOP directory (recorded as a `safeCheck`
event) and then read (`readF` models `Path.read_text`), raising
`SOPResourceLoadError` when the read fails after the passed check. -/
def read_sop_resource (resolve : PathT → PathT) (readF : PathT → Except PyExc String)
    (st : SOPsToolset) (sop_name resource_name : String) :
    Except RaisedErr String × List Event :=
  match pyDictGet st.sops sop_name with
  | none => (.ok ("Error: SOP '" ++ sop_name ++ "' not found."), [])
  | some sop =>
    match sop.resources.find? (fun r => r.name = resource_name) with
    | none =>
      (.ok ("Error: Resource '" ++ resource_name ++ "' not found in SOP '" ++
        sop_name ++ "'. Available resources: " ++
        pyReprStrList (sop.resources.map (fun r => r.name))), [])
    | some resource =>
      let ok := _is_safe_path resolve sop.path resource.path
      let evs := [Event.safeCheck sop.path resource.path ok]
      if ok then
        match readF resource.path with
        | .ok content => (.ok content, evs ++ [Event.readFile resource.path])
        | .error e =>
          (.error (.resourceLoadError
            ("Failed to read resource '" ++ resource_name ++ "': " ++ e.msg)), evs)
      else
        (.ok "Error: Resource path escapes SOP directory.", evs)

/-- A caller-facing operation of the Activation Registry. -/
inductive RegOp where
  | listOp
  | activateOp (sop_name : String)
  | readResourceOp (sop_name resource_name : String)
  | refreshOp (roots : List RootModel)
deriving DecidableEq

/-- State transition of one public operation.  `list_sops`, `activate_sop`
and `read_sop_resource` compute their output (and events) from the catalog
without ever reassigning `self._sops` — see their definitions above — so
only `refresh` changes the state. -/
def step (load : SafeLoad) (validate : Bool) (st : SOPsToolset) : RegOp → SOPsToolset
  | .listOp => st
  | .activateOp _ => st
  | .readResourceOp _ _ => st
  | .refreshOp roots => st.refresh load validate roots

/-- Catalog key consistency: every entry is stored under its own name. -/
def CatalogConsistent (st : SOPsToolset) : Prop :=
  ∀ k s, pyDictGet st.sops k = some s → s.name = k

/-! ### Concrete fixtures used by witnesses and counterexamples -/

/-- Concrete `yaml.safe_load` stand-in for the fixture manifests: it decodes
the two metadata blocks the fixtures use and rejects `bad: [`. -/
def fixtureLoad : SafeLoad := fun s =>
  if s = "bad: [" then .error "could not parse"
  else if s = "description: d" then .ok (some [("description", Yaml.str "d")])
  else if s = "name: goodsop" then .ok (some [("name", Yaml.str "goodsop")])
  else .ok none

/-- SOP folder whose `resources/` traversal hits an `OSError` on its first
entry while a second, readable entry follows. -/
def ceDirAlpha : SOPDirModel :=
  SOPDirModel.mk "alpha" ["sops", "alpha"] (.ok "Alpha instructions") []
    (some [ResourceEntry.mk ["resources", "bad.txt"] (.error (.osError "stat failed")),
           ResourceEntry.mk ["resources", "good.txt"] (.ok true)]) false

/-- An unproblematic SOP folder without frontmatter. -/
def ceDirBeta : SOPDirModel :=
  SOPDirModel.mk "beta" ["sops", "beta"] (.ok "Beta instructions") [] none false

/-- SOP folder whose manifest metadata block fails to decode. -/
def ceDirBad : SOPDirModel :=
  SOPDirModel.mk "badsop" ["sops", "badsop"] (.ok "---\nbad: [\n---\nBody") [] none false

/-- SOP folder with a perfectly well-formed manifest (named, readable,
no resource problems): the shape every discovery test of the repository
exercises. -/
def ceDirOk : SOPDirModel :=
  SOPDirModel.mk "goodsop" ["sops", "goodsop"] (.ok "---\nname: goodsop\n---\nBody ok")
    [] none false

/-- SOP folder whose manifest has a metadata block without a `name` key. -/
def ceDirNoName : SOPDirModel :=
  SOPDirModel.mk "test-sop" ["sops", "test-sop"] (.ok "---\ndescription: d\n---\nBody here")
    [] none false

/-- A catalog entry with a companion tool-module and one resource. -/
def ceAlphaSOP : SOP :=
  SOP.mk "alpha" ["sops", "alpha"] (SOPMetadata.mk "alpha" "Alpha SOP" []) "Do alpha things."
    true [SOPResource.mk "FORMS.md" ["sops", "alpha", "FORMS.md"]] []

/-- A registry holding only `ceAlphaSOP`. -/
def ceToolset : SOPsToolset := SOPsToolset.mk [("alpha", ceAlphaSOP)]

/-- Concrete stand-in for `_import_toolset`. -/
def ceImport : PathT → List String := fun _ => ["alpha_tool"]

/-! ### Dictionary lemmas -/

lemma pyDictGet_insert (d : List (String × SOP)) (k : String) (v : SOP) (k' : String) :
    pyDictGet (pyDictInsert d k v) k' = if k' = k then some v else pyDictGet d k' := by
  induction d with
  | nil =>
    by_cases h : k' = k
    · subst h; simp [pyDictInsert, pyDictGet, List.find?]
    · have h2 : ¬ k = k' := fun hh => h hh.symm
      simp [pyDictInsert, pyDictGet, List.find?, h, h2]
  | cons kv rest ih =>
    by_cases hk : kv.1 = k
    · by_cases h : k' = k
      · subst h
        simp [pyDictInsert, pyDictGet, List.find?, hk]
      · have h2 : ¬ k = k' := fun hh => h hh.symm
        simp [pyDictInsert, pyDictGet, List.find?, hk, h, h2]
    · by_cases h : k' = k
      · subst h
        simp only [pyDictInsert, if_neg hk, pyDictGet, List.find?]
        have : (decide (kv.1 = k')) = false := by simpa using hk
        rw [this]
        have := ih
        simp only [pyDictGet] at this
        simp [this]
      · simp only [pyDictInsert, if_neg hk, pyDictGet, List.find?]
        by_cases h2 : kv.1 = k'
        · simp [h2, h]
        · have e2 : (decide (kv.1 = k')) = false := by simpa using h2
          rw [e2]
          have := ih
          simp only [pyDictGet] at this
          simp [this, h]

lemma pyDictGet_foldl (sops : List SOP) (d : List (String × SOP)) (k : String) :
    pyDictGet (sops.foldl (fun acc s => pyDictInsert acc s.name s) d) k =
      (sops.reverse.find? (fun s => s.name = k)).or (pyDictGet d k) := by
  induction sops generalizing d with
  | nil => simp
  | cons s rest ih =>
    simp only [List.foldl_cons, ih, List.reverse_cons, List.find?_append]
    rw [Option.or_assoc]
    congr 1
    rw [pyDictGet_insert]
    by_cases h : s.name = k
    · simp [List.find?, h, Option.or]
    · have h2 : ¬ k = s.name := fun hh => h hh.symm
      simp [List.find?, h, h2]

/-- The catalog lookup built by `_discover_sops` returns the latest
discovered SOP carrying the looked-up name. -/
lemma pyDictGet_pyDictOfList (sops : List SOP) (k : String) :
    pyDictGet (pyDictOfList sops) k = sops.reverse.find? (fun s => s.name = k) := by
  have := pyDictGet_foldl sops [] k
  simpa [pyDictOfList, pyDictGet] using this

lemma consistent_pyDictOfList (l : List SOP) :
    CatalogConsistent (SOPsToolset.mk (pyDictOfList l)) := by
  intro k s h
  rw [show (SOPsToolset.mk (pyDictOfList l)).sops = pyDictOfList l from rfl] at h
  rw [pyDictGet_pyDictOfList] at h
  have := List.find?_some h
  simpa using this

lemma step_preserves (load : SafeLoad) (validate : Bool) (st : SOPsToolset) (op : RegOp)
    (h : CatalogConsistent st) : CatalogConsistent (step load validate st op) := by
  cases op with
  | listOp => exact h
  | activateOp n => exact h
  | readResourceOp n rn => exact h
  | refreshOp roots =>
    simp only [step, SOPsToolset.refresh]
    cases hd : discover_sops load roots validate with
    | ok l => exact consistent_pyDictOfList l
    | error e => exact h

lemma foldl_step_preserves (load : SafeLoad) (validate : Bool) (ops : List RegOp)
    (st : SOPsToolset) (h : CatalogConsistent st) :
    CatalogConsistent (ops.foldl (step load validate) st) := by
  induction ops generalizing st with
  | nil => exact h
  | cons op rest ih => exact ih _ (step_preserves load validate st op h)

/-! ### Claims C7 and C9 -/

/-- C7: for every discovery result list, the catalog map built by the
Activation Registry (`SOPsToolset._discover_sops`) holds, under each name,
exactly the procedure that appears latest in discovery order (the first
match in the reversed list), and a name is a key of the map exactly when
some discovered procedure carries it — so every identifier occurring in the
list is a key. -/
theorem catalog_last_write_wins (sops : List SOP) (k : String) :
    pyDictGet (pyDictOfList sops) k = sops.reverse.find? (fun s => s.name = k) ∧
    ((pyDictGet (pyDictOfList sops) k).isSome ↔ k ∈ sops.map (fun s => s.name)) := by
  refine ⟨pyDictGet_pyDictOfList sops k, ?_⟩
  rw [pyDictGet_pyDictOfList]
  rw [List.find?_isSome]
  constructor
  · rintro ⟨s, hs, hp⟩
    exact List.mem_map.mpr ⟨s, List.mem_reverse.mp hs, of_decide_eq_true hp⟩
  · rintro h
    obtain ⟨s, hs, rfl⟩ := List.mem_map.mp h
    exact ⟨s, List.mem_reverse.mpr hs, by simp⟩

/-- C9: catalog key consistency.  After construction (`__init__` with
auto-discovery) every catalog key maps to a procedure with that very
identifier, and the invariant is preserved by every sequence of public
operations — `list`, `activate` and `read_resource` never reassign the
catalog, and `refresh` rebuilds it with the same map construction. -/
theorem catalog_key_consistency (load : SafeLoad) (validate : Bool)
    (roots : List RootModel) (st : SOPsToolset) (ops : List RegOp)
    (hinit : mkToolset load roots validate true = .ok st) :
    CatalogConsistent (ops.foldl (step load validate) st) := by
  have h0 : CatalogConsistent st := by
    cases hd : discover_sops load roots validate with
    | error e => rw [mkToolset, if_pos rfl, hd] at hinit; cases hinit
    | ok l =>
      rw [mkToolset, if_pos rfl, hd] at hinit
      cases hinit
      exact consistent_pyDictOfList l
  exact foldl_step_preserves load validate ops st h0

/-- Witness for C9 at a concrete construction and operation sequence. -/
theorem catalog_key_consistency_witness :
    CatalogConsistent
      ([RegOp.refreshOp [RootModel.dir [ceDirBeta]], RegOp.listOp,
        RegOp.activateOp "beta"].foldl (step fixtureLoad true) (SOPsToolset.mk [])) :=
  catalog_key_consistency fixtureLoad true [] (SOPsToolset.mk [])
    [RegOp.refreshOp [RootModel.dir [ceDirBeta]], RegOp.listOp, RegOp.activateOp "beta"] rfl

/-! ### Discovery lemmas -/

lemma processSOPDir_skip_resources (load : SafeLoad) (v : Bool) (d : SOPDirModel)
    (c : String) (fm : Frontmatter) (ins : String) (e : PyExc)
    (hr : d.readResult = .ok c) (hp : parse_sop_md load c = .ok (fm, ins))
    (hres : _discover_resources d = .error e) :
    processSOPDir load v d = .ok none := by
  simp only [processSOPDir, hr, hp]
  by_cases hn : v && !((fmGet fm "name").map Yaml.truthy).getD false
  · simp [hn]
  · simp [hn, hres]

lemma processDirs_skip (load : SafeLoad) (v : Bool) (d : SOPDirModel)
    (h : processSOPDir load v d = .ok none) (ds₁ ds₂ : List SOPDirModel) :
    processDirs load v (ds₁ ++ d :: ds₂) = processDirs load v (ds₁ ++ ds₂) := by
  induction ds₁ with
  | nil => simp [processDirs, h]
  | cons a t ih =>
    simp only [List.cons_append, processDirs, List.append_eq]
    cases hpa : processSOPDir load v a with
    | error e => rfl
    | ok o =>
      cases o with
      | none => exact ih
      | some s => rw [ih]

lemma discover_skip (load : SafeLoad) (v : Bool) (d : SOPDirModel)
    (h : processSOPDir load v d = .ok none)
    (roots₁ roots₂ : List RootModel) (ds₁ ds₂ : List SOPDirModel) :
    discover_sops load (roots₁ ++ RootModel.dir (ds₁ ++ d :: ds₂) :: roots₂) v =
      discover_sops load (roots₁ ++ RootModel.dir (ds₁ ++ ds₂) :: roots₂) v := by
  induction roots₁ with
  | nil =>
    simp only [List.nil_append, discover_sops]
    rw [processDirs_skip load v d h ds₁ ds₂]
  | cons r t ih =>
    cases r with
    | missing => simpa only [List.cons_append, discover_sops] using ih
    | notDir => simpa only [List.cons_append, discover_sops] using ih
    | dir ds =>
      simp only [List.cons_append, discover_sops, List.append_eq]
      cases hp : processDirs load v ds with
      | error e => rfl
      | ok l => rw [ih]

/-! ### Claims C3, C5 and C6 -/

/-- Refutation of C3 as stated: `ceDirAlpha` has a readable sibling
resource entry (`resources/good.txt`) next to an entry whose traversal
raises, yet discovering it yields an empty catalog — the traversal error
aborts the whole entry, so the sibling resources of the same procedure are
NOT returned. -/
theorem resource_error_counterexample :
    discover_sops fixtureLoad [RootModel.dir [ceDirAlpha]] false = .ok [] := by
  rfl

/-- C3 amended: an error traversing an entry during resource resolution
makes the source skip the WHOLE procedure entry (that procedure and all
its other resources are absent from the result), while the traversal error
affects nothing else: discovery over the remaining entries and roots
proceeds exactly as if the erroring entry were absent — in particular the
traversal error itself never makes the discovery pass fail. -/
theorem resource_error_skips_whole_entry (load : SafeLoad) (validate : Bool)
    (roots₁ roots₂ : List RootModel) (ds₁ ds₂ : List SOPDirModel) (d : SOPDirModel)
    (c : String) (fm : Frontmatter) (ins : String) (e : PyExc)
    (hread : d.readResult = .ok c) (hparse : parse_sop_md load c = .ok (fm, ins))
    (hres : _discover_resources d = .error e) :
    discover_sops load (roots₁ ++ RootModel.dir (ds₁ ++ d :: ds₂) :: roots₂) validate =
      discover_sops load (roots₁ ++ RootModel.dir (ds₁ ++ ds₂) :: roots₂) validate :=
  discover_skip load validate d
    (processSOPDir_skip_resources load validate d c fm ins e hread hparse hres)
    roots₁ roots₂ ds₁ ds₂

/-- Witness for the amended C3 at the concrete fixture. -/
theorem resource_error_skips_whole_entry_witness :
    discover_sops fixtureLoad
      ([] ++ RootModel.dir ([] ++ ceDirAlpha :: [ceDirBeta]) :: []) false =
      discover_sops fixtureLoad ([] ++ RootModel.dir ([] ++ [ceDirBeta]) :: []) false :=
  resource_error_skips_whole_entry fixtureLoad false [] [] [] [ceDirBeta] ceDirAlpha
    "Alpha instructions" [] "Alpha instructions" (.osError "stat failed") rfl rfl rfl

/-- C5, code defect: the claim says only a metadata decode failure is
fatal to the whole discovery call.  A decode failure is indeed re-raised
as `SOPValidationError` when its entry is reached (second conjunct), but
an entry that survives parsing and validation — `ceDirOk`, a perfectly
well-formed manifest — makes the whole call raise the uncaught
`TypeError` from `SOP(..., has_toolset=...)` instead of contributing a
catalog entry (first conjunct), so per-entry failure containment does not
hold of the code as written. -/
theorem discovery_construction_type_error :
    discover_sops fixtureLoad [RootModel.dir [ceDirOk]] true =
      .error (DiscoverErr.typeError
        "SOP.__init__() got an unexpected keyword argument 'has_toolset'") ∧
    discover_sops fixtureLoad [RootModel.dir [ceDirBad]] true =
      .error (DiscoverErr.validation
        "Failed to parse YAML frontmatter: could not parse") := by
  exact ⟨rfl, rfl⟩

/-- C6, code defect: a manifest lacking an identifier is excluded by
validated discovery (first conjunct, which the code does implement — the
skip happens before construction), but with validation disabled the code
never yields the claimed single entry named after the folder: the entry
reaches `SOP(..., has_toolset=...)` and the whole call raises `TypeError`
(second conjunct), because the dataclass in `types.py` lacks the field. -/
theorem missing_name_discovery_type_error :
    discover_sops fixtureLoad [RootModel.dir [ceDirNoName]] true = .ok [] ∧
    discover_sops fixtureLoad [RootModel.dir [ceDirNoName]] false =
      .error (DiscoverErr.typeError
        "SOP.__init__() got an unexpected keyword argument 'has_toolset'") := by
  exact ⟨rfl, rfl⟩

/-! ### Claim C1 -/

/-- Refutation of C1 as stated: activating the fixture SOP (whose
has-tool-module flag is set) produces a trace whose `loadModule` event has
no preceding `safeCheck` event at all — the Path Safety Guard is never
applied before the dynamic load. -/
theorem activate_no_guard_counterexample :
    ¬ (∀ (i : Nat) (p : PathT),
        (activate_sop ceImport ceToolset "alpha").2[i]? = some (Event.loadModule p) →
        ∃ j base target, j < i ∧
          (activate_sop ceImport ceToolset "alpha").2[j]? =
            some (Event.safeCheck base target true)) := by
  intro h
  obtain ⟨j, base, target, hj, _⟩ :=
    h 0 (["sops", "alpha", "tools", "toolset.py"]) (by rfl)
  exact Nat.not_lt_zero j hj

/-- C1 amended: for every activation of a procedure whose has-tool-module
flag is set, the companion module is loaded from the fixed path
`<procedure dir>/tools/toolset.py` WITHOUT any Path Safety Guard check:
the event trace of the activation is exactly one `loadModule` event and
contains no `safeCheck` event. -/
theorem activate_loads_module_unguarded (importTools : PathT → List String)
    (st : SOPsToolset) (sop_name : String) (sop : SOP)
    (hfind : pyDictGet st.sops sop_name = some sop) (htool : sop.has_toolset = true) :
    (activate_sop importTools st sop_name).2 =
      [Event.loadModule (sop.path ++ ["tools", "toolset.py"])] := by
  simp [activate_sop, hfind, htool]

/-- Witness for the amended C1 at the concrete fixture registry. -/
theorem activate_loads_module_unguarded_witness :
    (activate_sop ceImport ceToolset "alpha").2 =
      [Event.loadModule (ceAlphaSOP.path ++ ["tools", "toolset.py"])] :=
  activate_loads_module_unguarded ceImport ceToolset "alpha" ceAlphaSOP rfl rfl

/-! ### Claim C2 -/

/-- Refutation of C2 as stated: with a canonicalization that fails by
raising (as `Path.resolve` can, e.g. `RuntimeError` on a symlink loop on
some interpreter versions), `_is_safe_path` propagates the exception
instead of returning false — only `ValueError` is caught. -/
theorem is_safe_path_raise_counterexample :
    isSafePathRun (fun _ => .error (.runtimeError "Symlink loop")) ["base"] ["base", "x"] =
      .error (.runtimeError "Symlink loop") ∧
    isSafePathRun (fun _ => .error (.runtimeError "Symlink loop")) ["base"] ["base", "x"] ≠
      .ok false := by
  refine ⟨rfl, ?_⟩
  intro h
  cases h

/-- C2 amended: when canonicalization succeeds (the behaviour of non-strict
`Path.resolve`, which resolves best-effort without failing), `_is_safe_path`
never raises and returns exactly the containment of the resolved target
under the resolved base — the `ValueError` from `relative_to` is caught and
mapped to false; but a canonicalization failure surfacing as a
non-`ValueError` exception propagates to the caller instead of yielding
false. -/
theorem is_safe_path_behaviour (resolve : PathT → PathT)
    (resolveE : PathT → Except PyExc PathT) (base target : PathT) :
    isSafePathRun (fun p => .ok (resolve p)) base target =
      .ok (_is_safe_path resolve base target) ∧
    (∀ m, resolveE target = .error (.runtimeError m) →
      isSafePathRun resolveE base target = .error (.runtimeError m)) := by
  constructor
  · by_cases h : (resolve base) <+: (resolve target)
    · simp [isSafePathRun, _is_safe_path, relative_to, h, List.isPrefixOf_iff_prefix,
        Except.map, Except.bind]
    · have hb : List.isPrefixOf (resolve base) (resolve target) = false := by
        rw [← Bool.not_eq_true, List.isPrefixOf_iff_prefix]
        exact h
      simp [isSafePathRun, _is_safe_path, relative_to, h, hb, Except.map, Except.bind]
  · intro m hm
    simp [isSafePathRun, hm, Except.bind]

/-- Witness for the amended C2 at concrete paths and resolvers. -/
theorem is_safe_path_behaviour_witness :
    isSafePathRun (fun p => .ok (id p)) ["a"] ["a", "b"] =
      .ok (_is_safe_path id ["a"] ["a", "b"]) ∧
    isSafePathRun (fun _ => .error (.runtimeError "loop")) ["a"] ["a", "b"] =
      .error (.runtimeError "loop") :=
  ⟨(is_safe_path_behaviour id (fun _ => .error (.runtimeError "loop")) ["a"] ["a", "b"]).1,
   (is_safe_path_behaviour id (fun _ => .error (.runtimeError "loop")) ["a"] ["a", "b"]).2
     "loop" rfl⟩

/-! ### Claim C4 -/

lemma mem_infix_joinSep (sep : List Char) (l : List (List Char)) (x : List Char)
    (hx : x ∈ l) : x <:+: joinSep sep l := by
  induction l with
  | nil => cases hx
  | cons a t ih =>
    rcases List.mem_cons.mp hx with rfl | hx2
    · cases t with
      | nil => exact List.infix_refl x
      | cons b t2 =>
        have h := List.prefix_append x (sep ++ joinSep sep (b :: t2))
        have h2 : x ++ (sep ++ joinSep sep (b :: t2)) = joinSep sep (x :: b :: t2) := by
          simp [joinSep, List.append_assoc]
        rw [h2] at h
        exact h.isInfix
    · cases t with
      | nil => cases hx2
      | cons b t2 =>
        have h1 : x <:+: joinSep sep (b :: t2) := ih hx2
        have h2 : joinSep sep (b :: t2) <:+ (a ++ sep) ++ joinSep sep (b :: t2) :=
          List.suffix_append _ _
        have h3 : (a ++ sep) ++ joinSep sep (b :: t2) = joinSep sep (a :: b :: t2) := by
          simp [joinSep, List.append_assoc]
        rw [h3] at h2
        exact h1.trans h2.isInfix

lemma mem_name_infix_pyRepr (names : List String) (x : String) (hx : x ∈ names) :
    x.data <:+: (pyReprStrList names).data := by
  have h1 : (quoteChar :: (x.data ++ [quoteChar])) ∈
      names.map (fun s => quoteChar :: (s.data ++ [quoteChar])) :=
    List.mem_map_of_mem _ hx
  have h2 := mem_infix_joinSep (", ").data _ _ h1
  have h3 : x.data <:+: (quoteChar :: (x.data ++ [quoteChar])) :=
    ⟨[quoteChar], [quoteChar], rfl⟩
  have h4 := h3.trans h2
  exact h4.trans ⟨['['], [']'], rfl⟩

/-- Refutation of C4 as stated: with the fixture registry whose only
identifier is `alpha`, a `read_sop_resource` call for the unknown
identifier `beta` returns the fixed string `Error: SOP 'beta' not found.`,
which does not mention `alpha` — the available alternatives are NOT
listed on this path. -/
theorem read_resource_no_listing_counterexample :
    (read_sop_resource id (fun _ => .ok "content") ceToolset "beta" "FORMS.md").1 =
      .ok "Error: SOP 'beta' not found." ∧
    ¬ ("alpha".data <:+: ("Error: SOP 'beta' not found.").data) := by
  refine ⟨rfl, ?_⟩
  decide

/-- C4 amended: `read_sop_resource` returns caller-visible error strings
rather than raising for both an unknown identifier and an unknown resource
name; the unknown-resource string lists the procedure's resource names
(every resource name occurs in it), but the unknown-identifier string is
the fixed `Error: SOP '<name>' not found.` WITHOUT the list of known
identifiers. -/
theorem read_resource_error_strings (resolve : PathT → PathT)
    (readF : PathT → Except PyExc String) (st : SOPsToolset)
    (sop_name resource_name : String) :
    (pyDictGet st.sops sop_name = none →
      read_sop_resource resolve readF st sop_name resource_name =
        (.ok ("Error: SOP '" ++ sop_name ++ "' not found."), [])) ∧
    (∀ sop, pyDictGet st.sops sop_name = some sop →
      sop.resources.find? (fun r => r.name = resource_name) = none →
      read_sop_resource resolve readF st sop_name resource_name =
        (.ok ("Error: Resource '" ++ resource_name ++ "' not found in SOP '" ++
          sop_name ++ "'. Available resources: " ++
          pyReprStrList (sop.resources.map (fun r => r.name))), []) ∧
      ∀ r ∈ sop.resources,
        r.name.data <:+: (pyReprStrList (sop.resources.map (fun r => r.name))).data) := by
  constructor
  · intro h
    simp [read_sop_resource, h]
  · intro sop hfind hres
    refine ⟨by simp [read_sop_resource, hfind, hres], ?_⟩
    intro r hr
    exact mem_name_infix_pyRepr _ r.name (List.mem_map_of_mem _ hr)

/-- Witness for the amended C4 at the concrete fixture registry. -/
theorem read_resource_error_strings_witness :
    (read_sop_resource id (fun _ => .ok "content") ceToolset "gamma" "X.md" =
      (.ok ("Error: SOP '" ++ "gamma" ++ "' not found."), [])) ∧
    (read_sop_resource id (fun _ => .ok "content") ceToolset "alpha" "NOPE.md" =
      (.ok ("Error: Resource '" ++ "NOPE.md" ++ "' not found in SOP '" ++ "alpha" ++
        "'. Available resources: " ++
        pyReprStrList (ceAlphaSOP.resources.map (fun r => r.name))), []) ∧
      ∀ r ∈ ceAlphaSOP.resources,
        r.name.data <:+: (pyReprStrList (ceAlphaSOP.resources.map (fun r => r.name))).data) :=
  ⟨(read_resource_error_strings id (fun _ => .ok "content") ceToolset "gamma" "X.md").1 rfl,
   (read_resource_error_strings id (fun _ => .ok "content") ceToolset "alpha" "NOPE.md").2
     ceAlphaSOP rfl rfl⟩

/-! ### Claim C8 -/

/-- Refutation of C8 as stated: the identifier `abc\n` is at most 64
characters long and does not consist solely of lowercase letters, digits
and hyphens (it contains a newline), yet the validator emits NO warning at
all: `re.match` with the `$` anchor accepts a single trailing newline. -/
theorem name_format_warning_counterexample :
    ("abc\n" : String).length ≤ 64 ∧
    ("abc\n" : String).data.all isNameChar = false ∧
    _validate_sop_metadata [("name", Yaml.str "abc\n")] "" = [] := by
  refine ⟨by decide, by decide, by decide⟩

/-- C8 amended: for every metadata mapping whose identifier is a string of
at most 64 characters that does not consist solely of lowercase ASCII
letters, digits and hyphens AND is not such a string followed by exactly
one trailing newline (which Python's `$` anchor accepts), the validator's
warning sequence contains the format warning for the identifier. -/
theorem name_format_warning_amended (fm : Frontmatter) (instructions : String)
    (s : String)
    (hget : fmGet fm "name" = some (Yaml.str s))
    (hlen : s.length ≤ 64)
    (hbad : s.data.all isNameChar = false)
    (hnotnl : ¬(s.data.getLast? = some '\n' ∧ s.data.dropLast.all isNameChar = true ∧
      s.data.dropLast ≠ [])) :
    ("SOP name '" ++ s ++ "' should contain only lowercase letters, numbers, and hyphens") ∈
      _validate_sop_metadata fm instructions := by
  have hne : s ≠ "" := by
    intro h
    subst h
    exact absurd hbad (by decide)
  have hmatch : sopNamePatternMatch s = false := by
    simp only [sopNamePatternMatch, hbad, Bool.and_false, Bool.false_or, Bool.and_eq_false_imp]
    by_cases h1 : s.data.getLast? = some '\n'
    · by_cases h2 : s.data.dropLast.all isNameChar = true
      · by_cases h3 : s.data.dropLast = []
        · simp [h3]
        · exact absurd ⟨h1, h2, h3⟩ hnotnl
      · simp only [Bool.not_eq_true] at h2
        simp [h2]
    · simp [h1]
  have hnm : fmStr fm "name" = s := by
    simp [fmStr, hget, Yaml.truthy, hne, Yaml.pyStr]
  have hlen2 : ¬ s.length > 64 := by omega
  simp only [_validate_sop_metadata, hnm, if_neg hlen2, hmatch, Bool.not_false, if_true,
    if_neg (by simpa using hne)]
  simp [hne]

/-- Witness for the amended C8 at a concrete identifier. -/
theorem name_format_warning_amended_witness :
    ("SOP name '" ++ "ab!" ++
      "' should contain only lowercase letters, numbers, and hyphens") ∈
      _validate_sop_metadata [("name", Yaml.str "ab!")] "" :=
  name_format_warning_amended [("name", Yaml.str "ab!")] "" "ab!" rfl (by decide)
    (by decide) (by decide)

/-! ### Claim C10 -/

lemma closeScan_none_of_fail (cs : List Char) :
    ∀ b, linesAllFailDelim b cs = true → closeScan b cs = none := by
  induction cs with
  | nil =>
    intro b h
    cases b <;> simp [closeScan, matchDelim]
  | cons c rest ih =>
    intro b h
    rw [linesAllFailDelim] at h
    simp only [Bool.and_eq_true] at h
    obtain ⟨h1, h2⟩ := h
    have hm : (if b then matchDelim (c :: rest) else none) = none := by
      cases b
      · rfl
      · simpa [Option.isNone_iff_eq_none] using h1
    rw [closeScan, hm]
    simp [ih _ h2]

lemma openScan_none_of_fail (cs : List Char) :
    ∀ b, linesAllFailDelim b cs = true → openScan b cs = none := by
  induction cs with
  | nil =>
    intro b h
    cases b <;> simp [openScan, matchDelim]
  | cons c rest ih =>
    intro b h
    rw [linesAllFailDelim] at h
    simp only [Bool.and_eq_true] at h
    obtain ⟨h1, h2⟩ := h
    have hm : (if b then
        match matchDelim (c :: rest) with
        | some afterOpen => closeScan true afterOpen
        | none => none
      else none) = none := by
      cases b
      · rfl
      · have : matchDelim (c :: rest) = none := by
          simpa [Option.isNone_iff_eq_none] using h1
        simp [this]
    rw [openScan, hm]
    simp [ih _ h2]

lemma openScan_cons_step (b : Bool) (c : Char) (cs : List Char)
    (h : (if b then
        match matchDelim (c :: cs) with
        | some afterOpen => closeScan true afterOpen
        | none => none
      else none) = none) :
    openScan b (c :: cs) = openScan (c = '\n') cs := by
  rw [openScan, h]

/-- C10: in a manifest document whose closing `---` line is the final line
and is not followed by a newline (and whose body `m` contains no other
delimiter line, which is what makes that final line the intended closing
delimiter; `m` not opening with whitespace keeps the opening delimiter's
greedy whitespace run out of the body), the regex finds no frontmatter
block at all: the parser returns empty metadata and the entire trimmed
document as the instructions body. -/
theorem trailing_delimiter_no_frontmatter (load : SafeLoad) (m : List Char)
    (hhead : m.head?.elim true (fun c => !isPySpace c) = true)
    (hfail : linesAllFailDelim true (m ++ ['-', '-', '-']) = true) :
    parse_sop_md load (String.mk ('-' :: '-' :: '-' :: '\n' :: (m ++ ['-', '-', '-']))) =
      .ok ([], pyStrip (String.mk ('-' :: '-' :: '-' :: '\n' :: (m ++ ['-', '-', '-'])))) := by
  have h1 : afterLastNewlineInRun (m ++ ['-', '-', '-']) = none := by
    cases m with
    | nil => rfl
    | cons c t =>
      have hc : isPySpace c = false := by simpa using hhead
      have hcn : ¬ c = '\n' := by
        intro h
        rw [h] at hc
        exact absurd hc (by decide)
      simp [afterLastNewlineInRun, hcn, hc]
  have h2 : matchDelim ('-' :: '-' :: '-' :: '\n' :: (m ++ ['-', '-', '-'])) =
      some (m ++ ['-', '-', '-']) := by
    simp [matchDelim, afterLastNewlineInRun, h1]
  have h3 := closeScan_none_of_fail (m ++ ['-', '-', '-']) true hfail
  have h4 := openScan_none_of_fail (m ++ ['-', '-', '-']) true hfail
  have hscan : openScan true ('-' :: '-' :: '-' :: '\n' :: (m ++ ['-', '-', '-'])) = none := by
    rw [openScan_cons_step true '-' _ (by simp only [if_true, h2, h3])]
    rw [show (decide (('-' : Char) = '\n')) = false from by decide]
    rw [openScan_cons_step false '-' _ rfl]
    rw [show (decide (('-' : Char) = '\n')) = false from by decide]
    rw [openScan_cons_step false '-' _ rfl]
    rw [show (decide (('-' : Char) = '\n')) = false from by decide]
    rw [openScan_cons_step false '\n' _ rfl]
    rw [show (decide (('\n' : Char) = '\n')) = true from by decide]
    exact h4
  rw [parse_sop_md]
  rw [show (String.mk ('-' :: '-' :: '-' :: '\n' :: (m ++ ['-', '-', '-']))).data =
    ('-' :: '-' :: '-' :: '\n' :: (m ++ ['-', '-', '-'])) from rfl]
  rw [hscan]

/-- Witness for C10 at a concrete manifest whose closing delimiter line is
the final line without a trailing newline. -/
theorem trailing_delimiter_no_frontmatter_witness :
    parse_sop_md fixtureLoad
      (String.mk ('-' :: '-' :: '-' :: '\n' :: ("name: x\n".data ++ ['-', '-', '-']))) =
      .ok ([], pyStrip
        (String.mk ('-' :: '-' :: '-' :: '\n' :: ("name: x\n".data ++ ['-', '-', '-'])))) :=
  trailing_delimiter_no_frontmatter fixtureLoad ("name: x\n".data) (by decide) (by decide)

end SOPs
